import Mathlib

/-!
Shallow embedding of `ftpclient.h` (single-header FTP client over libcurl).

C strings are modelled as `List Char`; a nullable `char *` is `Option Str`.
The libcurl transfer engine is external: its observable behaviour in one
operation (the result of `curl_easy_perform`, and of `curl_easy_getinfo`
for the content length) is an oracle record `CurlEnv` passed to each
embedded operation.  Heap allocation success (`strdup`, `realloc`,
`fopen`) is likewise passed in as an explicit boolean oracle.
-/

namespace Ftp

/-- C strings; a byte of the string is a `Char`. -/
abbrev Str := List Char

/-- Default `FTP_MAX_URL_LENGTH` (ftpclient.h line 59). -/
def FTP_MAX_URL_LENGTH : Nat := 2048

/-- Default `FTP_BUFFER_SIZE` (ftpclient.h line 63). -/
def FTP_BUFFER_SIZE : Nat := 8192

/-- `ftp_error_t` (ftpclient.h lines 67-80). -/
inductive ftp_error_t where
  | FTP_OK
  | FTP_ERROR_INIT
  | FTP_ERROR_CONNECTION
  | FTP_ERROR_AUTH
  | FTP_ERROR_TRANSFER
  | FTP_ERROR_FILE_NOT_FOUND
  | FTP_ERROR_MEMORY
  | FTP_ERROR_INVALID_PARAM
  | FTP_ERROR_CURL
  | FTP_ERROR_FILE_IO
  | FTP_ERROR_TIMEOUT
deriving DecidableEq, Repr

/-- The integer value each `ftp_error_t` enumerator has in the C source. -/
def ftp_error_t.code : ftp_error_t → Int
  | .FTP_OK => 0
  | .FTP_ERROR_INIT => -1
  | .FTP_ERROR_CONNECTION => -2
  | .FTP_ERROR_AUTH => -3
  | .FTP_ERROR_TRANSFER => -4
  | .FTP_ERROR_FILE_NOT_FOUND => -5
  | .FTP_ERROR_MEMORY => -6
  | .FTP_ERROR_INVALID_PARAM => -7
  | .FTP_ERROR_CURL => -8
  | ftp_error_t.FTP_ERROR_FILE_IO => -9
  | .FTP_ERROR_TIMEOUT => -10

/-- `ftp_mode_t` (ftpclient.h lines 83-87). -/
inductive ftp_mode_t where
  | FTP_MODE_PASSIVE
  | FTP_MODE_ACTIVE
deriving DecidableEq, Repr

/-- `ftp_ssl_mode_t` (ftpclient.h lines 90-96). -/
inductive ftp_ssl_mode_t where
  | FTP_SSL_NONE
  | FTP_SSL_TRY
  | FTP_SSL_CONTROL
  | FTP_SSL_ALL
deriving DecidableEq, Repr

/-- The libcurl result codes this wrapper inspects, plus a representative
generic failure (`CURLE_RECV_ERROR`) standing for any other error. -/
inductive CURLcode where
  | CURLE_OK
  | CURLE_LOGIN_DENIED
  | CURLE_OPERATION_TIMEDOUT
  | CURLE_REMOTE_FILE_NOT_FOUND
  | CURLE_ABORTED_BY_CALLBACK
  | CURLE_RECV_ERROR
deriving DecidableEq, Repr

/-- Oracle for one libcurl transfer: the outcome of `curl_easy_perform`
and of the `CURLINFO_CONTENT_LENGTH_DOWNLOAD_T` query afterwards. -/
structure CurlEnv where
  perform : CURLcode
  getinfo : CURLcode
  content_length : Int
deriving DecidableEq, Repr

/-- `ftp_config_t` (ftpclient.h lines 111-125).  `α` is the type behind the
opaque `void *progress_user_data`; nullable pointers are `Option`. -/
structure ftp_config_t (α : Type) where
  host : Option Str
  port : Int
  username : Option Str
  password : Option Str
  mode : ftp_mode_t
  ssl_mode : ftp_ssl_mode_t
  verify_ssl : Int
  timeout : Int
  connect_timeout : Int
  verbose : Int
  progress_callback : Option (Option α → Int → Int → Int → Int → Int)
  progress_user_data : Option α

/-- `ftp_client_t` (ftpclient.h lines 128-133).  `curl` records whether the
`CURL *` handle is non-null; the `last_error` message buffer is carried but
its text is not tracked by the theorems below. -/
structure ftp_client_t (α : Type) where
  curl : Bool
  config : ftp_config_t α
  last_error : Str

/-- Decimal rendering of a C `int` by `snprintf` `%d`. -/
def intToDec (i : Int) : Str :=
  if i < 0 then '-' :: Nat.toDigits 10 i.natAbs else Nat.toDigits 10 i.toNat

/-- `build_ftp_url` (ftpclient.h lines 758-790).  Returns the bytes placed
in the `url` buffer of size `url_size` (snprintf truncates to
`url_size - 1` bytes), or `FTP_ERROR_INVALID_PARAM` when the estimated
required length exceeds the buffer. -/
def build_ftp_url (host : Str) (port : Int) (remote_path : Option Str)
    (url_size : Nat) : Except ftp_error_t Str :=
  let protocol : Str := "ftp".data
  let base_len := protocol.length + 3 + host.length + 1 + 5 + 1
  let path_len := match remote_path with | some p => p.length | none => 0
  let required_len := base_len + path_len + 1
  if required_len > url_size then
    .error .FTP_ERROR_INVALID_PARAM
  else
    let full : Str :=
      match remote_path with
      | some p =>
        if p.head? = some '/' then
          protocol ++ "://".data ++ host ++ ":".data ++ intToDec port ++ p
        else
          protocol ++ "://".data ++ host ++ ":".data ++ intToDec port ++ "/".data ++ p
      | none => protocol ++ "://".data ++ host ++ ":".data ++ intToDec port ++ "/".data
    .ok (full.take (url_size - 1))

/-- `ftp_client_init_config` (ftpclient.h lines 908-921): `memset` to zero
followed by the explicit default assignments.  The two `strdup` calls are
modelled as succeeding (the C code does not check them). -/
def ftp_client_init_config (α : Type) : ftp_config_t α where
  host := none
  port := 21
  username := some "anonymous".data
  password := some "user@example.com".data
  mode := .FTP_MODE_PASSIVE
  ssl_mode := .FTP_SSL_NONE
  verify_ssl := 1
  timeout := 60
  connect_timeout := 30
  verbose := 0
  progress_callback := none
  progress_user_data := none

/-- `ftp_client_create` (ftpclient.h lines 888-906).  `curl_ok` is the
oracle for `curl_easy_init` succeeding; `calloc` is assumed to succeed
(its failure also returns NULL and allocates nothing). -/
def ftp_client_create (α : Type) (curl_ok : Bool) : Option (ftp_client_t α) :=
  if curl_ok then
    some { curl := true, config := ftp_client_init_config α, last_error := [] }
  else
    none

/-- `ftp_client_set_host` (ftpclient.h lines 923-946).  Returns the error
code and the client after the call.  `strdup_ok` is the allocation oracle
for `strdup(host)`; on its failure the stored host has just been freed and
replaced by the NULL result. -/
def ftp_client_set_host {α : Type} (client : Option (ftp_client_t α))
    (host : Option Str) (port : Int) (strdup_ok : Bool) :
    ftp_error_t × Option (ftp_client_t α) :=
  match client, host with
  | some c, some h =>
    if strdup_ok = false then
      (.FTP_ERROR_MEMORY, some { c with config := { c.config with host := none } })
    else
      let c1 := { c with config := { c.config with host := some h } }
      if 0 < port ∧ port ≤ 65535 then
        (.FTP_OK, some { c1 with config := { c1.config with port := port } })
      else
        (.FTP_OK, some c1)
  | _, _ => (.FTP_ERROR_INVALID_PARAM, client)

/-- `progress_callback_wrapper` (ftpclient.h lines 746-756): forwards the
libcurl progress counters to the registered observer together with the
stored user pointer, or returns 0 when no observer is registered. -/
def progress_callback_wrapper {α : Type} (client : ftp_client_t α)
    (dltotal dlnow ultotal ulnow : Int) : Int :=
  match client.config.progress_callback with
  | some cb => cb client.config.progress_user_data dltotal dlnow ultotal ulnow
  | none => 0

/-- Outcome of a QUOTE-command operation: the returned error code, and the
command list handed to `CURLOPT_QUOTE` before `curl_easy_perform` ran
(empty when the operation returned before reaching the transfer engine). -/
structure QuoteOutcome where
  result : ftp_error_t
  quote_commands : List Str
deriving DecidableEq, Repr

/-- `ftp_client_execute_simple_command` (ftpclient.h lines 831-873):
builds the base URL for path `"/"`, hands `commands` to `CURLOPT_QUOTE`
and performs; a NULL/empty command list or an oversize base URL returns
before the transfer engine is invoked. -/
def ftp_client_execute_simple_command {α : Type} (client : Option (ftp_client_t α))
    (commands : List Str) (env : CurlEnv) : QuoteOutcome :=
  match client with
  | some c =>
    if c.curl = false ∨ commands = [] then
      { result := .FTP_ERROR_INVALID_PARAM, quote_commands := [] }
    else
      match build_ftp_url (c.config.host.getD []) c.config.port (some "/".data)
          FTP_MAX_URL_LENGTH with
      | .error e => { result := e, quote_commands := [] }
      | .ok _ =>
        if env.perform = .CURLE_OK then
          { result := .FTP_OK, quote_commands := commands }
        else
          { result := .FTP_ERROR_TRANSFER, quote_commands := commands }
  | none => { result := .FTP_ERROR_INVALID_PARAM, quote_commands := [] }

/-- The `snprintf(cmd, 512, "VERB %s%s", slash, path)` pattern shared by
`mkdir`/`rmdir`/`delete`/`rename` (e.g. ftpclient.h line 1311): the verb
with its trailing space, a `/` prepended when the path does not already
start with one, truncated to the 511 bytes that fit the 512-byte buffer. -/
def format_path_cmd (verb : Str) (path : Str) : Str :=
  (verb ++ (if path.head? = some '/' then [] else "/".data) ++ path).take 511

/-- `ftp_client_rename` (ftpclient.h lines 1301-1320): builds the
`RNFR`/`RNTO` pair and runs it through
`ftp_client_execute_simple_command`. -/
def ftp_client_rename {α : Type} (client : Option (ftp_client_t α))
    (old_path new_path : Option Str) (env : CurlEnv) : QuoteOutcome :=
  match client, old_path, new_path with
  | some c, some op, some np =>
    if c.curl = false then { result := .FTP_ERROR_INVALID_PARAM, quote_commands := [] }
    else
      ftp_client_execute_simple_command (some c)
        [format_path_cmd "RNFR ".data op, format_path_cmd "RNTO ".data np] env
  | _, _, _ => { result := .FTP_ERROR_INVALID_PARAM, quote_commands := [] }

/-- Outcome of `ftp_client_upload`: the error code and whether
`curl_easy_perform` (the transfer) was reached. -/
structure UploadOutcome where
  result : ftp_error_t
  transfer_attempted : Bool
deriving DecidableEq, Repr

/-- `ftp_client_upload` (ftpclient.h lines 1086-1136).  `fopen_ok` is the
oracle for `fopen(local_path, "rb")`. -/
def ftp_client_upload {α : Type} (client : Option (ftp_client_t α))
    (local_path remote_path : Option Str) (fopen_ok : Bool) (env : CurlEnv) :
    UploadOutcome :=
  match client, local_path, remote_path with
  | some c, some _lp, some rp =>
    if c.curl = false then { result := .FTP_ERROR_INVALID_PARAM, transfer_attempted := false }
    else if fopen_ok = false then { result := ftp_error_t.FTP_ERROR_FILE_IO, transfer_attempted := false }
    else
      match build_ftp_url (c.config.host.getD []) c.config.port (some rp)
          FTP_MAX_URL_LENGTH with
      | .error e => { result := e, transfer_attempted := false }
      | .ok _ =>
        if env.perform = .CURLE_OK then { result := .FTP_OK, transfer_attempted := true }
        else { result := .FTP_ERROR_TRANSFER, transfer_attempted := true }
  | _, _, _ => { result := .FTP_ERROR_INVALID_PARAM, transfer_attempted := false }

/-- Outcome of `ftp_client_download`: the error code, whether the local
sink file was created (`fopen(local_path, "wb")` succeeded), whether a
local file remains on disk after the call, and whether the transfer
(`curl_easy_perform`) was reached. -/
structure DownloadOutcome where
  result : ftp_error_t
  file_created : Bool
  file_on_disk : Bool
  transfer_attempted : Bool
deriving DecidableEq, Repr

/-- `ftp_client_download` (ftpclient.h lines 1138-1186).  On a failed
`curl_easy_perform` the partial local file is removed (`remove` at line
1176); note that the oversize-URL early return closes but does not remove
the just-created file. -/
def ftp_client_download {α : Type} (client : Option (ftp_client_t α))
    (remote_path local_path : Option Str) (fopen_ok : Bool) (env : CurlEnv) :
    DownloadOutcome :=
  match client, remote_path, local_path with
  | some c, some rp, some _lp =>
    if c.curl = false then
      { result := .FTP_ERROR_INVALID_PARAM, file_created := false,
        file_on_disk := false, transfer_attempted := false }
    else if fopen_ok = false then
      { result := ftp_error_t.FTP_ERROR_FILE_IO, file_created := false,
        file_on_disk := false, transfer_attempted := false }
    else
      match build_ftp_url (c.config.host.getD []) c.config.port (some rp)
          FTP_MAX_URL_LENGTH with
      | .error e =>
        { result := e, file_created := true, file_on_disk := true,
          transfer_attempted := false }
      | .ok _ =>
        if env.perform = .CURLE_OK then
          { result := .FTP_OK, file_created := true, file_on_disk := true,
            transfer_attempted := true }
        else if env.perform = .CURLE_REMOTE_FILE_NOT_FOUND then
          { result := .FTP_ERROR_FILE_NOT_FOUND, file_created := true,
            file_on_disk := false, transfer_attempted := true }
        else
          { result := .FTP_ERROR_TRANSFER, file_created := true,
            file_on_disk := false, transfer_attempted := true }
  | _, _, _ =>
    { result := .FTP_ERROR_INVALID_PARAM, file_created := false,
      file_on_disk := false, transfer_attempted := false }

/-- `ftp_client_get_filesize` (ftpclient.h lines 1322-1378).  The second
component is the value behind the `size` out-pointer after the call
(`none` models passing a NULL pointer, which is rejected up front). -/
def ftp_client_get_filesize {α : Type} (client : Option (ftp_client_t α))
    (remote_path : Option Str) (size_ptr : Option Int) (env : CurlEnv) :
    ftp_error_t × Option Int :=
  match client, remote_path, size_ptr with
  | some c, some rp, some s0 =>
    if c.curl = false then (.FTP_ERROR_INVALID_PARAM, some s0)
    else
      match build_ftp_url (c.config.host.getD []) c.config.port (some rp)
          FTP_MAX_URL_LENGTH with
      | .error e => (e, some s0)
      | .ok _ =>
        if env.perform ≠ .CURLE_OK then (.FTP_ERROR_TRANSFER, some s0)
        else if env.getinfo = .CURLE_OK ∧ env.content_length ≥ 0 then
          (.FTP_OK, some env.content_length)
        else (.FTP_ERROR_TRANSFER, some s0)
  | _, _, _ => (.FTP_ERROR_INVALID_PARAM, size_ptr)

/-- `ftp_memory_buffer_t` (ftpclient.h lines 103-108).  `data` gives the
byte stored at each index of the allocation. -/
structure ftp_memory_buffer_t where
  data : Nat → UInt8
  size : Nat
  capacity : Nat

/-- The capacity-doubling loop of `write_memory_callback` (ftpclient.h
lines 712-716): double `cap` until it reaches `needed`.  The C loop
diverges when `cap` is 0; both call sites pass a positive `cap`, and the
`0 < cap` guard makes the Lean function total without changing those
cases. -/
def growLoop (cap needed : Nat) : Nat :=
  if 0 < cap ∧ cap < needed then growLoop (cap * 2) needed else cap
termination_by needed - cap
decreasing_by omega

/-- `write_memory_callback` (ftpclient.h lines 705-732).  `contents` is
the incoming byte block (its length is `size * nmemb`), `realloc_ok` the
allocation oracle.  Returns the callback's return value and the buffer
after the call. -/
def write_memory_callback (contents : List UInt8) (realloc_ok : Bool)
    (mem : ftp_memory_buffer_t) : Nat × ftp_memory_buffer_t :=
  let realsize := contents.length
  let grown : Option ftp_memory_buffer_t :=
    if mem.size + realsize + 1 > mem.capacity then
      let new_capacity :=
        growLoop (if mem.capacity = 0 then FTP_BUFFER_SIZE else mem.capacity * 2)
          (mem.size + realsize + 1)
      if realloc_ok then some { mem with capacity := new_capacity } else none
    else
      some mem
  match grown with
  | none => (0, mem)
  | some m =>
    let data' : Nat → UInt8 := fun i =>
      if h : mem.size ≤ i ∧ i < mem.size + contents.length then
        contents.get ⟨i - mem.size, by omega⟩
      else if i = mem.size + contents.length then 0
      else m.data i
    (realsize, { m with data := data', size := mem.size + realsize })

/-- A client as produced by `ftp_client_create` followed by
`ftp_client_set_host(client, "h", 21)`: the smallest concrete client the
witnesses and counterexamples below run the operations on. -/
def sampleClient : ftp_client_t Unit :=
  { curl := true
    config := { ftp_client_init_config Unit with host := some "h".data }
    last_error := [] }

/-- `sampleClient` with a registered progress observer that requests
cancellation (returns 1) on its first invocation. -/
def cancellingClient : ftp_client_t Unit :=
  { curl := true
    config := { ftp_client_init_config Unit with
                  host := some "h".data
                  progress_callback := some fun _ _ _ _ _ => 1 }
    last_error := [] }

/-! ## Helper lemmas -/

/-- The doubling loop reaches the requested capacity whenever it starts
from a positive one. -/
theorem growLoop_ge (cap needed : Nat) (h : 0 < cap) : needed ≤ growLoop cap needed := by
  have H : ∀ k cap, needed - cap ≤ k → 0 < cap → needed ≤ growLoop cap needed := by
    intro k
    induction k with
    | zero =>
      intro cap hk hc
      unfold growLoop
      have hcond : ¬ (0 < cap ∧ cap < needed) := by omega
      simp [hcond]
      omega
    | succ k ih =>
      intro cap hk hc
      unfold growLoop
      by_cases hlt : cap < needed
      · have hcond : (0 < cap ∧ cap < needed) := ⟨hc, hlt⟩
        simp [hcond]
        exact ih (cap * 2) (by omega) (by omega)
      · have hcond : ¬ (0 < cap ∧ cap < needed) := by omega
        simp [hcond]
        omega
  exact H (needed - cap) cap (Nat.le_refl _) h

/-- `build_ftp_url` succeeds when host and path fit the length estimate
(`required_len = host + path + 14` must not exceed the buffer). -/
theorem build_ftp_url_fit (host p : Str) (port : Int) (sz : Nat)
    (h : host.length + p.length + 14 ≤ sz) :
    ∃ u, build_ftp_url host port (some p) sz = Except.ok u := by
  have hpl : ("ftp".data).length = 3 := rfl
  unfold build_ftp_url
  simp only [hpl]
  rw [if_neg (by omega)]
  exact ⟨_, rfl⟩

/-- `build_ftp_url` rejects host/path combinations whose length estimate
exceeds the buffer. -/
theorem build_ftp_url_oversize (host p : Str) (port : Int) (sz : Nat)
    (h : host.length + p.length + 14 > sz) :
    build_ftp_url host port (some p) sz = Except.error .FTP_ERROR_INVALID_PARAM := by
  have hpl : ("ftp".data).length = 3 := rfl
  unfold build_ftp_url
  simp only [hpl]
  rw [if_pos (by omega)]

/-- Closed form of a successful `build_ftp_url`: the URL is always
`ftp://host:port` followed by the path with a `/` ensured in front. -/
theorem build_ftp_url_eval (host p : Str) (port : Int) (sz : Nat)
    (h : host.length + p.length + 14 ≤ sz) :
    build_ftp_url host port (some p) sz =
      Except.ok (("ftp".data ++ "://".data ++ host ++ ":".data ++ intToDec port ++
        (if p.head? = some '/' then p else '/' :: p)).take (sz - 1)) := by
  have hpl : ("ftp".data).length = 3 := rfl
  unfold build_ftp_url
  simp only [hpl]
  rw [if_neg (by omega)]
  by_cases hp : p.head? = some '/'
  · simp [hp]
  · simp [hp]

/-- The 511-byte truncation in `format_path_cmd` is the identity when the
formatted command fits the `cmd` buffer. -/
theorem format_path_cmd_of_fit (verb p : Str)
    (h : (verb ++ (if p.head? = some '/' then [] else "/".data) ++ p).length ≤ 511) :
    format_path_cmd verb p = verb ++ (if p.head? = some '/' then [] else "/".data) ++ p := by
  unfold format_path_cmd
  exact List.take_of_length_le h

/-- `ftp_client_rename` hands exactly the formatted `RNFR`/`RNTO` pair to
the transfer engine whenever the base URL fits. -/
theorem rename_quote_commands {α : Type} (c : ftp_client_t α) (h op np : Str)
    (env : CurlEnv)
    (hcurl : c.curl = true) (hhost : c.config.host = some h)
    (hh : h.length + 15 ≤ FTP_MAX_URL_LENGTH) :
    (ftp_client_rename (some c) (some op) (some np) env).quote_commands =
      [format_path_cmd "RNFR ".data op, format_path_cmd "RNTO ".data np] := by
  obtain ⟨u, hu⟩ := build_ftp_url_fit h "/".data c.config.port FTP_MAX_URL_LENGTH
    (by have hs : ("/".data).length = 1 := rfl; omega)
  by_cases hp : env.perform = CURLcode.CURLE_OK
  · simp [ftp_client_rename, ftp_client_execute_simple_command, hcurl, hhost, hu, hp]
  · simp [ftp_client_rename, ftp_client_execute_simple_command, hcurl, hhost, hu, hp]

/-- `write_memory_callback` on reallocation failure: returns 0 and leaves
the buffer untouched. -/
theorem wmcb_fail (contents : List UInt8) (mem : ftp_memory_buffer_t)
    (hg : mem.size + contents.length + 1 > mem.capacity) :
    write_memory_callback contents false mem = (0, mem) := by
  unfold write_memory_callback
  simp [hg]

/-- `write_memory_callback` when reallocation is not needed or succeeds:
returns `realsize`, extends the buffer by it, terminates it with a NUL
byte, and keeps `size + 1 ≤ capacity`. -/
theorem wmcb_success (contents : List UInt8) (ok : Bool) (mem : ftp_memory_buffer_t)
    (h : ¬ (mem.size + contents.length + 1 > mem.capacity ∧ ok = false)) :
    ∃ m, write_memory_callback contents ok mem = (contents.length, m) ∧
      m.size = mem.size + contents.length ∧
      m.data (mem.size + contents.length) = 0 ∧
      mem.size + contents.length + 1 ≤ m.capacity := by
  by_cases hg : mem.size + contents.length + 1 > mem.capacity
  · have hok : ok = true := by
      cases ok
      · exact absurd ⟨hg, rfl⟩ h
      · rfl
    subst hok
    unfold write_memory_callback
    simp only [hg, if_true, if_pos]
    refine ⟨_, rfl, rfl, ?_, ?_⟩
    · simp
    · have hcap : 0 < (if mem.capacity = 0 then FTP_BUFFER_SIZE else mem.capacity * 2) := by
        by_cases hc : mem.capacity = 0
        · simp [hc, FTP_BUFFER_SIZE]
        · simp [hc]
          omega
      exact growLoop_ge _ _ hcap
  · unfold write_memory_callback
    simp only [hg, if_neg, if_false]
    refine ⟨_, rfl, rfl, ?_, ?_⟩
    · simp
    · show mem.size + contents.length + 1 ≤ mem.capacity
      omega

/-! ## Claim theorems -/

/-- C1 (counterexample): a size query of a non-existent remote path (the
engine reports `CURLE_REMOTE_FILE_NOT_FOUND`) makes `ftp_client_get_filesize`
return `FTP_ERROR_TRANSFER`, not the claimed `FTP_ERROR_FILE_NOT_FOUND`. -/
theorem get_filesize_missing_not_notfound :
    (ftp_client_get_filesize (some sampleClient) (some "/nope.bin".data) (some 0)
        ⟨.CURLE_REMOTE_FILE_NOT_FOUND, .CURLE_OK, 0⟩).1 = .FTP_ERROR_TRANSFER ∧
    ftp_error_t.FTP_ERROR_TRANSFER ≠ .FTP_ERROR_FILE_NOT_FOUND :=
  ⟨rfl, by decide⟩

/-- C1 (amended): a download of a non-existent remote path returns
`FTP_ERROR_FILE_NOT_FOUND`, while a size query of a non-existent remote
path returns `FTP_ERROR_TRANSFER` (the undistinguished transfer error). -/
theorem download_missing_notfound_filesize_transfer {α : Type} (c : ftp_client_t α)
    (h rp lp : Str) (s0 : Int) (env : CurlEnv)
    (hcurl : c.curl = true) (hhost : c.config.host = some h)
    (hfit : h.length + rp.length + 14 ≤ FTP_MAX_URL_LENGTH)
    (henv : env.perform = .CURLE_REMOTE_FILE_NOT_FOUND) :
    (ftp_client_download (some c) (some rp) (some lp) true env).result
        = .FTP_ERROR_FILE_NOT_FOUND ∧
    (ftp_client_get_filesize (some c) (some rp) (some s0) env).1
        = .FTP_ERROR_TRANSFER := by
  obtain ⟨u, hu⟩ := build_ftp_url_fit h rp c.config.port FTP_MAX_URL_LENGTH hfit
  constructor
  · simp [ftp_client_download, hcurl, hhost, hu, henv]
  · simp [ftp_client_get_filesize, hcurl, hhost, hu, henv]

/-- C1 (witness): concrete run of the amended theorem on `sampleClient`
and the path `/nope.bin`. -/
theorem download_missing_notfound_filesize_transfer_witness :
    (ftp_client_download (some sampleClient) (some "/nope.bin".data) (some "l".data) true
        ⟨.CURLE_REMOTE_FILE_NOT_FOUND, .CURLE_OK, 0⟩).result = .FTP_ERROR_FILE_NOT_FOUND ∧
    (ftp_client_get_filesize (some sampleClient) (some "/nope.bin".data) (some 0)
        ⟨.CURLE_REMOTE_FILE_NOT_FOUND, .CURLE_OK, 0⟩).1 = .FTP_ERROR_TRANSFER :=
  download_missing_notfound_filesize_transfer sampleClient "h".data "/nope.bin".data
    "l".data 0 ⟨.CURLE_REMOTE_FILE_NOT_FOUND, .CURLE_OK, 0⟩ rfl rfl (by decide) rfl

/-- C2 (counterexample): a transfer aborted by the progress observer (the
engine reports `CURLE_ABORTED_BY_CALLBACK`) fails with `FTP_ERROR_TRANSFER`,
the same code as any generic transfer failure (here `CURLE_RECV_ERROR`);
the error enumeration has no distinct Cancelled code the call could
return. -/
theorem abort_same_error_as_generic_failure :
    progress_callback_wrapper cancellingClient 0 0 0 0 = 1 ∧
    (ftp_client_download (some cancellingClient) (some "/f".data) (some "l".data) true
        ⟨.CURLE_ABORTED_BY_CALLBACK, .CURLE_OK, 0⟩).result = .FTP_ERROR_TRANSFER ∧
    (ftp_client_download (some cancellingClient) (some "/f".data) (some "l".data) true
        ⟨.CURLE_RECV_ERROR, .CURLE_OK, 0⟩).result = .FTP_ERROR_TRANSFER :=
  ⟨rfl, rfl, rfl⟩

/-- C2 (amended): when the registered progress observer returns non-zero,
`progress_callback_wrapper` forwards that non-zero value to libcurl (which
aborts the transfer with `CURLE_ABORTED_BY_CALLBACK`), and the overall
download fails with the generic `FTP_ERROR_TRANSFER` — the partial file is
removed. -/
theorem abort_callback_fails_with_transfer_error {α : Type} (c : ftp_client_t α)
    (h rp lp : Str) (cb : Option α → Int → Int → Int → Int → Int)
    (d1 d2 d3 d4 : Int) (env : CurlEnv)
    (hcb : c.config.progress_callback = some cb)
    (hnz : cb c.config.progress_user_data d1 d2 d3 d4 ≠ 0)
    (hcurl : c.curl = true) (hhost : c.config.host = some h)
    (hfit : h.length + rp.length + 14 ≤ FTP_MAX_URL_LENGTH)
    (henv : env.perform = .CURLE_ABORTED_BY_CALLBACK) :
    progress_callback_wrapper c d1 d2 d3 d4 ≠ 0 ∧
    (ftp_client_download (some c) (some rp) (some lp) true env).result
        = .FTP_ERROR_TRANSFER ∧
    (ftp_client_download (some c) (some rp) (some lp) true env).file_on_disk = false := by
  obtain ⟨u, hu⟩ := build_ftp_url_fit h rp c.config.port FTP_MAX_URL_LENGTH hfit
  refine ⟨?_, ?_, ?_⟩
  · simpa [progress_callback_wrapper, hcb] using hnz
  · simp [ftp_client_download, hcurl, hhost, hu, henv]
  · simp [ftp_client_download, hcurl, hhost, hu, henv]

/-- C2 (witness): concrete run of the amended theorem on
`cancellingClient`, whose observer returns 1. -/
theorem abort_callback_fails_with_transfer_error_witness :
    progress_callback_wrapper cancellingClient 1 2 3 4 ≠ 0 ∧
    (ftp_client_download (some cancellingClient) (some "/f".data) (some "l".data) true
        ⟨.CURLE_ABORTED_BY_CALLBACK, .CURLE_OK, 0⟩).result = .FTP_ERROR_TRANSFER ∧
    (ftp_client_download (some cancellingClient) (some "/f".data) (some "l".data) true
        ⟨.CURLE_ABORTED_BY_CALLBACK, .CURLE_OK, 0⟩).file_on_disk = false :=
  abort_callback_fails_with_transfer_error cancellingClient "h".data "/f".data "l".data
    (fun _ _ _ _ _ => 1) 1 2 3 4 ⟨.CURLE_ABORTED_BY_CALLBACK, .CURLE_OK, 0⟩
    rfl (by decide) rfl rfl (by decide) rfl

/-- C3 (counterexample): a 600-character old path does not fit the
512-byte command buffer, so the `RNFR` command `ftp_client_rename` issues
is silently truncated to 511 bytes and is not `RNFR /` followed by the
full path. -/
theorem rename_truncates_long_path :
    (ftp_client_rename (some sampleClient) (some (List.replicate 600 'a'))
        (some "/b".data) ⟨.CURLE_OK, .CURLE_OK, 0⟩).quote_commands ≠
      ["RNFR ".data ++ '/' :: List.replicate 600 'a', "RNTO /b".data] := by
  rw [rename_quote_commands sampleClient "h".data (List.replicate 600 'a') "/b".data
    ⟨.CURLE_OK, .CURLE_OK, 0⟩ rfl rfl (by decide)]
  intro hEq
  injection hEq with h1 h2
  have hlen := congrArg List.length h1
  have hif : (if (List.replicate 600 'a').head? = some '/' then ([] : Str) else "/".data)
      = "/".data := rfl
  have hv : ("RNFR ".data).length = 5 := rfl
  have hs : ("/".data).length = 1 := rfl
  simp only [format_path_cmd, hif, List.length_take, List.length_append,
    List.length_cons, List.length_replicate, hv, hs] at hlen
  omega

/-- C3 (amended): for paths that fit the 512-byte command buffer,
`ftp_client_rename` issues exactly two control commands, `RNFR old` then
`RNTO new` in that order, each path sent in absolute form with `/`
prepended when missing. -/
theorem rename_issues_rnfr_then_rnto {α : Type} (c : ftp_client_t α) (h op np : Str)
    (env : CurlEnv)
    (hcurl : c.curl = true) (hhost : c.config.host = some h)
    (hh : h.length + 15 ≤ FTP_MAX_URL_LENGTH)
    (hop : 6 + op.length ≤ 511) (hnp : 6 + np.length ≤ 511) :
    (ftp_client_rename (some c) (some op) (some np) env).quote_commands =
      ["RNFR ".data ++ (if op.head? = some '/' then op else '/' :: op),
       "RNTO ".data ++ (if np.head? = some '/' then np else '/' :: np)] := by
  have hcmd : ∀ verb p : Str, verb.length = 5 → 6 + p.length ≤ 511 →
      format_path_cmd verb p = verb ++ (if p.head? = some '/' then p else '/' :: p) := by
    intro verb p hv hp
    by_cases hs : p.head? = some '/'
    · have hpfx : (if p.head? = some '/' then ([] : Str) else "/".data) = [] := by
        simp [hs]
      rw [format_path_cmd_of_fit verb p]
      · simp [hs]
      · have h0 : ([] : Str).length = 0 := rfl
        simp only [hpfx, List.length_append, h0, hv]
        omega
    · have hpfx : (if p.head? = some '/' then ([] : Str) else "/".data) = "/".data := by
        simp [hs]
      rw [format_path_cmd_of_fit verb p]
      · simp [hs]
      · have h1 : ("/".data).length = 1 := rfl
        simp only [hpfx, List.length_append, h1, hv]
        omega
  rw [rename_quote_commands c h op np env hcurl hhost hh,
    hcmd "RNFR ".data op rfl hop, hcmd "RNTO ".data np rfl hnp]

/-- C3 (witness): `rename("/a.txt", "b.txt")` on `sampleClient` issues
exactly `RNFR /a.txt` then `RNTO /b.txt`. -/
theorem rename_issues_rnfr_then_rnto_witness :
    (ftp_client_rename (some sampleClient) (some "/a.txt".data) (some "b.txt".data)
        ⟨.CURLE_OK, .CURLE_OK, 0⟩).quote_commands =
      ["RNFR /a.txt".data, "RNTO /b.txt".data] := by
  rw [rename_issues_rnfr_then_rnto sampleClient "h".data "/a.txt".data "b.txt".data
    ⟨.CURLE_OK, .CURLE_OK, 0⟩ rfl rfl (by decide) (by decide) (by decide)]
  rfl

/-- C4 (counterexample): `ftp_client_set_host` with the out-of-range port
70000 returns `FTP_OK`, not the claimed `FTP_ERROR_INVALID_PARAM`. -/
theorem set_host_oversize_port_returns_ok :
    (ftp_client_set_host (some sampleClient) (some "ftp.example.com".data) 70000 true).1
        = .FTP_OK ∧
    ftp_error_t.FTP_OK ≠ .FTP_ERROR_INVALID_PARAM :=
  ⟨rfl, by decide⟩

/-- C4 (amended): for every port outside 1..65535, `ftp_client_set_host`
silently ignores the port — it stores the new host, leaves the configured
port unchanged and returns `FTP_OK`. -/
theorem set_host_out_of_range_port_ignored {α : Type} (c : ftp_client_t α) (h : Str)
    (port : Int) (hp : ¬ (0 < port ∧ port ≤ 65535)) :
    ftp_client_set_host (some c) (some h) port true =
      (.FTP_OK, some { c with config := { c.config with host := some h } }) := by
  unfold ftp_client_set_host
  simp [hp]

/-- C4 (witness): concrete run of the amended theorem with port 0. -/
theorem set_host_out_of_range_port_ignored_witness :
    ftp_client_set_host (some sampleClient) (some "x".data) 0 true =
      (.FTP_OK, some { sampleClient with
        config := { sampleClient.config with host := some "x".data } }) :=
  set_host_out_of_range_port_ignored sampleClient "x".data 0 (by decide)

/-- C5: `ftp_client_init_config` sets exactly the documented defaults —
port 21, username `anonymous`, password `user@example.com`, passive mode,
SSL mode none, certificate verification on, timeout 60 s, connect timeout
30 s, verbose off — and `ftp_client_create` installs that configuration in
the fresh client. -/
theorem init_config_defaults (α : Type) :
    (ftp_client_init_config α).port = 21 ∧
    (ftp_client_init_config α).username = some "anonymous".data ∧
    (ftp_client_init_config α).password = some "user@example.com".data ∧
    (ftp_client_init_config α).mode = .FTP_MODE_PASSIVE ∧
    (ftp_client_init_config α).ssl_mode = .FTP_SSL_NONE ∧
    (ftp_client_init_config α).verify_ssl = 1 ∧
    (ftp_client_init_config α).timeout = 60 ∧
    (ftp_client_init_config α).connect_timeout = 30 ∧
    (ftp_client_init_config α).verbose = 0 ∧
    ftp_client_create α true =
      some { curl := true, config := ftp_client_init_config α, last_error := [] } :=
  ⟨rfl, rfl, rfl, rfl, rfl, rfl, rfl, rfl, rfl, rfl⟩

/-- C6 (counterexample): at the buffer boundary the two URL constructions
differ — a relative path of 2033 characters passes `build_ftp_url`'s
length check while the same path with `/` prepended is rejected with
`FTP_ERROR_INVALID_PARAM`, so the constructed URLs are not equal for every
relative path. -/
theorem build_url_normalize_boundary_differs :
    build_ftp_url "h".data 21 (some (List.replicate 2033 'a')) 2048 ≠
    build_ftp_url "h".data 21 (some ('/' :: List.replicate 2033 'a')) 2048 := by
  have hlen : (List.replicate 2033 'a').length = 2033 := List.length_replicate 2033 'a'
  have h1 : ("h".data).length = 1 := rfl
  obtain ⟨u, hok⟩ := build_ftp_url_fit "h".data (List.replicate 2033 'a') 21 2048
    (by omega)
  have herr : build_ftp_url "h".data 21 (some ('/' :: List.replicate 2033 'a')) 2048
      = Except.error .FTP_ERROR_INVALID_PARAM :=
    build_ftp_url_oversize "h".data ('/' :: List.replicate 2033 'a') 21 2048
      (by simp only [List.length_cons, hlen, h1]; omega)
  intro hEq
  rw [hok, herr] at hEq
  exact absurd hEq (by simp)

/-- C6 (amended): for every relative remote path such that the
`/`-prepended variant also passes the length check, `build_ftp_url`
produces the same URL for the path and for the path with `/` prepended —
relative paths are normalized by prepending `/`. -/
theorem build_url_normalizes_relative (host p : Str) (port : Int) (sz : Nat)
    (hrel : p.head? ≠ some '/')
    (hfit : host.length + p.length + 15 ≤ sz) :
    build_ftp_url host port (some p) sz = build_ftp_url host port (some ('/' :: p)) sz := by
  rw [build_ftp_url_eval host p port sz (by omega),
    build_ftp_url_eval host ('/' :: p) port sz (by simp only [List.length_cons]; omega)]
  simp [hrel]

/-- C6 (witness): the URL built for the relative path `a` equals the URL
built for `/a`. -/
theorem build_url_normalizes_relative_witness :
    build_ftp_url "h".data 21 (some "a".data) 2048 =
    build_ftp_url "h".data 21 (some ('/' :: "a".data)) 2048 :=
  build_url_normalizes_relative "h".data "a".data 21 2048 (by decide) (by decide)

/-- C7: whenever the local sink file was successfully created and the
transfer then fails (`curl_easy_perform` returns non-OK),
`ftp_client_download` removes the partial local file before returning a
non-OK error, so no partial sink remains on disk. -/
theorem download_failure_removes_partial {α : Type} (c : ftp_client_t α) (h rp lp : Str)
    (env : CurlEnv)
    (hcurl : c.curl = true) (hhost : c.config.host = some h)
    (hfit : h.length + rp.length + 14 ≤ FTP_MAX_URL_LENGTH)
    (hfail : env.perform ≠ .CURLE_OK) :
    (ftp_client_download (some c) (some rp) (some lp) true env).file_created = true ∧
    (ftp_client_download (some c) (some rp) (some lp) true env).result ≠ .FTP_OK ∧
    (ftp_client_download (some c) (some rp) (some lp) true env).file_on_disk = false ∧
    (ftp_client_download (some c) (some rp) (some lp) true env).transfer_attempted = true := by
  obtain ⟨u, hu⟩ := build_ftp_url_fit h rp c.config.port FTP_MAX_URL_LENGTH hfit
  by_cases hnf : env.perform = CURLcode.CURLE_REMOTE_FILE_NOT_FOUND
  · simp [ftp_client_download, hcurl, hhost, hu, hfail, hnf]
  · simp [ftp_client_download, hcurl, hhost, hu, hfail, hnf]

/-- C7 (witness): concrete failed download on `sampleClient`; the created
file is gone afterwards. -/
theorem download_failure_removes_partial_witness :
    (ftp_client_download (some sampleClient) (some "/f".data) (some "l".data) true
        ⟨.CURLE_RECV_ERROR, .CURLE_OK, 0⟩).file_created = true ∧
    (ftp_client_download (some sampleClient) (some "/f".data) (some "l".data) true
        ⟨.CURLE_RECV_ERROR, .CURLE_OK, 0⟩).result ≠ .FTP_OK ∧
    (ftp_client_download (some sampleClient) (some "/f".data) (some "l".data) true
        ⟨.CURLE_RECV_ERROR, .CURLE_OK, 0⟩).file_on_disk = false ∧
    (ftp_client_download (some sampleClient) (some "/f".data) (some "l".data) true
        ⟨.CURLE_RECV_ERROR, .CURLE_OK, 0⟩).transfer_attempted = true :=
  download_failure_removes_partial sampleClient "h".data "/f".data "l".data
    ⟨.CURLE_RECV_ERROR, .CURLE_OK, 0⟩ rfl rfl (by decide) (by decide)

/-- C8: when scheme + host + `:` + 5-digit port + path + terminator exceed
the `FTP_MAX_URL_LENGTH`-byte URL buffer (host + path + 13 >
FTP_MAX_URL_LENGTH), `ftp_client_upload` returns
`FTP_ERROR_INVALID_PARAM` and never reaches the transfer engine. -/
theorem upload_oversize_url_invalid_param {α : Type} (c : ftp_client_t α) (h rp lp : Str)
    (env : CurlEnv)
    (hcurl : c.curl = true) (hhost : c.config.host = some h)
    (hbig : h.length + rp.length + 13 > FTP_MAX_URL_LENGTH) :
    ftp_client_upload (some c) (some lp) (some rp) true env =
      { result := .FTP_ERROR_INVALID_PARAM, transfer_attempted := false } := by
  have hb := build_ftp_url_oversize h rp c.config.port FTP_MAX_URL_LENGTH (by omega)
  simp [ftp_client_upload, hcurl, hhost, hb]

/-- C8 (witness): an upload of a 2035-character remote path on
`sampleClient` is rejected without any transfer. -/
theorem upload_oversize_url_invalid_param_witness :
    ftp_client_upload (some sampleClient) (some "l".data)
        (some (List.replicate 2035 'a')) true ⟨.CURLE_OK, .CURLE_OK, 0⟩ =
      { result := .FTP_ERROR_INVALID_PARAM, transfer_attempted := false } :=
  upload_oversize_url_invalid_param sampleClient "h".data (List.replicate 2035 'a')
    "l".data ⟨.CURLE_OK, .CURLE_OK, 0⟩ rfl rfl
    (by
      have h1 : ("h".data).length = 1 := rfl
      simp only [h1, List.length_replicate, FTP_MAX_URL_LENGTH]
      omega)

/-- C9 (counterexample): `write_memory_callback` invoked with an empty
block returns 0 although reallocation did not fail (the buffer already had
room and `realloc` was never attempted), so "returns 0 exactly when
reallocation fails" does not hold. -/
theorem write_memory_zero_without_realloc_failure :
    (write_memory_callback [] true ⟨fun _ => 0, 0, 1⟩).1 = 0 ∧
    ¬ ((⟨fun _ => 0, 0, 1⟩ : ftp_memory_buffer_t).size + ([] : List UInt8).length + 1 >
        (⟨fun _ => 0, 0, 1⟩ : ftp_memory_buffer_t).capacity ∧ (true : Bool) = false) :=
  ⟨rfl, by decide⟩

/-- C9 (amended): `write_memory_callback` returns 0 iff reallocation fails
or the incoming block is empty; on reallocation failure the buffer is
completely unchanged; otherwise it returns `size * nmemb`, grows `size` by
exactly that amount, NUL-terminates the data at the new `size`, and
maintains `size + 1 ≤ capacity`. -/
theorem write_memory_callback_spec (contents : List UInt8) (ok : Bool)
    (mem : ftp_memory_buffer_t) :
    ((write_memory_callback contents ok mem).1 = 0 ↔
        (mem.size + contents.length + 1 > mem.capacity ∧ ok = false) ∨ contents = []) ∧
    (mem.size + contents.length + 1 > mem.capacity ∧ ok = false →
        write_memory_callback contents ok mem = (0, mem)) ∧
    (¬ (mem.size + contents.length + 1 > mem.capacity ∧ ok = false) →
      (write_memory_callback contents ok mem).1 = contents.length ∧
      (write_memory_callback contents ok mem).2.size = mem.size + contents.length ∧
      (write_memory_callback contents ok mem).2.data
          ((write_memory_callback contents ok mem).2.size) = 0 ∧
      (write_memory_callback contents ok mem).2.size + 1 ≤
        (write_memory_callback contents ok mem).2.capacity) := by
  refine ⟨?_, ?_, ?_⟩
  · by_cases hf : mem.size + contents.length + 1 > mem.capacity ∧ ok = false
    · obtain ⟨hg, hok⟩ := hf
      subst hok
      rw [wmcb_fail contents mem hg]
      simp [hg]
    · obtain ⟨m, hm, _, _, _⟩ := wmcb_success contents ok mem hf
      rw [hm]
      simp [hf, List.length_eq_zero]
  · rintro ⟨hg, hok⟩
    subst hok
    exact wmcb_fail contents mem hg
  · intro hf
    obtain ⟨m, hm, hsz, hdata, hcap⟩ := wmcb_success contents ok mem hf
    rw [hm]
    refine ⟨rfl, hsz, ?_, ?_⟩
    · show m.data m.size = 0
      rw [hsz]
      exact hdata
    · show m.size + 1 ≤ m.capacity
      rw [hsz]
      exact hcap

/-- C9 (witness): concrete runs of the amended theorem — a failed
reallocation leaves the one-byte buffer untouched and returns 0; a
successful growth for a one-byte block returns 1, NUL-terminates, and
keeps `size + 1 ≤ capacity`. -/
theorem write_memory_callback_spec_witness :
    write_memory_callback [42] false ⟨fun _ => 0, 0, 1⟩ = (0, ⟨fun _ => 0, 0, 1⟩) ∧
    ((write_memory_callback [42] true ⟨fun _ => 0, 0, 1⟩).1 = ([42] : List UInt8).length ∧
     (write_memory_callback [42] true ⟨fun _ => 0, 0, 1⟩).2.size =
        (⟨fun _ => 0, 0, 1⟩ : ftp_memory_buffer_t).size + ([42] : List UInt8).length ∧
     (write_memory_callback [42] true ⟨fun _ => 0, 0, 1⟩).2.data
        ((write_memory_callback [42] true ⟨fun _ => 0, 0, 1⟩).2.size) = 0 ∧
     (write_memory_callback [42] true ⟨fun _ => 0, 0, 1⟩).2.size + 1 ≤
        (write_memory_callback [42] true ⟨fun _ => 0, 0, 1⟩).2.capacity) :=
  ⟨(write_memory_callback_spec [42] false ⟨fun _ => 0, 0, 1⟩).2.1 (by decide),
   (write_memory_callback_spec [42] true ⟨fun _ => 0, 0, 1⟩).2.2 (by decide)⟩

/-- C10: `ftp_client_get_filesize` writes through its size out-pointer
only when it returns `FTP_OK`; on every error return the pointee is left
unchanged. -/
theorem get_filesize_frame {α : Type} (client : Option (ftp_client_t α)) (rp : Option Str)
    (sp : Option Int) (env : CurlEnv)
    (h : (ftp_client_get_filesize client rp sp env).1 ≠ .FTP_OK) :
    (ftp_client_get_filesize client rp sp env).2 = sp := by
  rcases client with _ | c
  · rfl
  rcases rp with _ | rp
  · rfl
  rcases sp with _ | s0
  · rfl
  by_cases hc : c.curl = false
  · simp [ftp_client_get_filesize, hc]
  · cases hb : build_ftp_url (c.config.host.getD []) c.config.port (some rp) FTP_MAX_URL_LENGTH with
    | error e => simp [ftp_client_get_filesize, hc, hb]
    | ok u =>
      by_cases hp : env.perform = CURLcode.CURLE_OK
      · by_cases hg : env.getinfo = CURLcode.CURLE_OK ∧ env.content_length ≥ 0
        · exact absurd (by simp [ftp_client_get_filesize, hc, hb, hp, hg]) h
        · simp [ftp_client_get_filesize, hc, hb, hp, hg]
      · simp [ftp_client_get_filesize, hc, hb, hp]

/-- C10 (witness): a failed size query on `sampleClient` leaves the
pointee at its prior value 7. -/
theorem get_filesize_frame_witness :
    (ftp_client_get_filesize (some sampleClient) (some "/f".data) (some 7)
        ⟨.CURLE_RECV_ERROR, .CURLE_OK, 0⟩).2 = some 7 :=
  get_filesize_frame (some sampleClient) (some "/f".data) (some 7)
    ⟨.CURLE_RECV_ERROR, .CURLE_OK, 0⟩ (by decide)

end Ftp
